import Mathlib

/-!
Shallow embedding of the WSLMCP command-execution bridge, path translator and
file-manager call-sites (src/wsl_mcp/core/wsl.py, src/wsl_mcp/tools/file_manager.py),
with theorems settling the frozen claims about them.

The child-process launch (`subprocess.run`) is modelled by an oracle value of
type `SubBehavior`: either the process completed with an exit code and two
captured streams, or a `TimeoutExpired` was raised, or launching raised some
other exception.  Every Python function here becomes a Lean function of the
parameters that influence its observable result plus that oracle.
-/

set_option linter.unusedVariables false

/-! ## Python string primitives (modelled on `List Char`) -/

/-- Whitespace as recognised by Python `str.strip()` / `str.split()` for the
ASCII range (space, tab, newline, carriage return, vertical tab, form feed). -/
def pyIsSpace (c : Char) : Bool :=
  c == ' ' || c == '\t' || c == '\n' || c == '\r' || c == '\x0b' || c == '\x0c'

/-- Python `str.strip()` on a character list: drop whitespace at both ends. -/
def stripChars (l : List Char) : List Char :=
  ((l.dropWhile pyIsSpace).reverse.dropWhile pyIsSpace).reverse

/-- Python `str.strip()`. -/
def pyStrip (s : String) : String :=
  ⟨stripChars s.data⟩

/-- Python `str.split(sep)` for a one-character separator: keeps empty pieces,
`"".split(sep) = [""]`. -/
def splitCh (sep : Char) : List Char → List (List Char)
  | [] => [[]]
  | c :: rest =>
    if c = sep then [] :: splitCh sep rest
    else
      match splitCh sep rest with
      | [] => [[c]]
      | s :: ss => (c :: s) :: ss

/-- Python `sep.join(pieces)` for a one-character separator. -/
def joinSep (sep : Char) : List (List Char) → List Char
  | [] => []
  | [x] => x
  | x :: xs => x ++ sep :: joinSep sep xs

/-- Python `s.split('\n')` at the string level. -/
def splitNL (s : String) : List String :=
  (splitCh '\n' s.data).map String.mk

/-- Accumulator worker for Python `str.split()` with no argument: maximal runs
of non-whitespace characters, whitespace-separated, empty pieces dropped. -/
def pyTokensAux : List Char → List Char → List (List Char)
  | [], acc => if acc.isEmpty then [] else [acc.reverse]
  | c :: rest, acc =>
    if pyIsSpace c then
      if acc.isEmpty then pyTokensAux rest []
      else acc.reverse :: pyTokensAux rest []
    else pyTokensAux rest (c :: acc)

/-- Python `str.split()` (no argument) on a character list. -/
def pyTokensChars (l : List Char) : List (List Char) :=
  pyTokensAux l []

/-- Python `str.split()` (no argument) at the string level. -/
def pyTokens (s : String) : List String :=
  (pyTokensChars s.data).map String.mk

/-- Python `int(s)`: optional sign followed by at least one decimal digit. -/
def pyParseInt (s : String) : Option Int :=
  let digitsVal : List Char → Option Nat := fun ds =>
    if ds.isEmpty then none
    else if ds.all Char.isDigit then
      some (ds.foldl (fun n c => n * 10 + (c.toNat - '0'.toNat)) 0)
    else none
  match s.data with
  | '-' :: ds => (digitsVal ds).map (fun n => -(n : Int))
  | '+' :: ds => (digitsVal ds).map (fun n => (n : Int))
  | ds => (digitsVal ds).map (fun n => (n : Int))

/-! ## Bridge data model (`src/wsl_mcp/core/wsl.py`) -/

/-- The dataclass `WSLCommandResult(returncode, stdout, stderr)`. -/
structure WSLCommandResult where
  returncode : Int
  stdout : String
  stderr : String
deriving DecidableEq

/-- The raw `subprocess.CompletedProcess` fields the code reads when the child
completed: exit code and the two captured (already decoded) streams. -/
structure RunResult where
  returncode : Int
  stdout : String
  stderr : String
deriving DecidableEq

/-- An exception raised by `subprocess.run`: either `subprocess.TimeoutExpired`
or any other `Exception` (e.g. an OS-level launch failure); `rendered` is the
text `str(e)` would produce. -/
inductive PyError where
  | timedOut (rendered : String)
  | launchError (rendered : String)
deriving DecidableEq

/-- Python `str(e)` for a caught exception. -/
def PyError.text : PyError → String
  | .timedOut r => r
  | .launchError r => r

/-- Oracle for one `subprocess.run` call: completion or a raised exception. -/
abbrev SubBehavior := Except PyError RunResult

/-- Message placed in stderr by the dedicated `except subprocess.TimeoutExpired`
handlers of the simple and advanced runs ("command execution timed out"). -/
def timeoutMessage : String := "命令执行超时"

/-- `WSLTool.execute_command`: argument vector `[wsl.exe, sh, -c, command]`,
outcome with both streams stripped; a `TimeoutExpired` is caught and mapped to
`(-1, "", timeoutMessage)`, any other exception to `(-1, "", str(e))`. -/
def execute_command (beh : SubBehavior) : WSLCommandResult :=
  match beh with
  | .ok r => ⟨r.returncode, pyStrip r.stdout, pyStrip r.stderr⟩
  | .error (.timedOut _) => ⟨-1, "", timeoutMessage⟩
  | .error (.launchError m) => ⟨-1, "", m⟩

/-- The argument vector built by `WSLTool.execute_command_advanced`: starts from
`[wsl.exe]`, extends with each optional flag pair only when the corresponding
string parameter is truthy (non-empty), then appends `--exec sh -c command`. -/
def execute_command_advanced_args
    (command distribution user working_dir shell_type : String) : List String :=
  let cmd1 := ["wsl.exe"]
  let cmd2 := if distribution = "" then cmd1 else cmd1 ++ ["-d", distribution]
  let cmd3 := if user = "" then cmd2 else cmd2 ++ ["-u", user]
  let cmd4 := if working_dir = "" then cmd3 else cmd3 ++ ["--cd", working_dir]
  let cmd5 := if shell_type = "" then cmd4 else cmd4 ++ ["--shell-type", shell_type]
  cmd5 ++ ["--exec", "sh", "-c", command]

/-- Outcome of `WSLTool.execute_command_advanced`: identical try/except shape to
`execute_command` (dedicated `TimeoutExpired` handler, then generic handler). -/
def execute_command_advanced_result (beh : SubBehavior) : WSLCommandResult :=
  match beh with
  | .ok r => ⟨r.returncode, pyStrip r.stdout, pyStrip r.stderr⟩
  | .error (.timedOut _) => ⟨-1, "", timeoutMessage⟩
  | .error (.launchError m) => ⟨-1, "", m⟩

/-- `WSLTool.shutdown_wsl`: on completion stdout is the fixed message
"WSL已关闭" when the exit code is 0 and `""` otherwise (the child's stdout is
discarded); only a generic `except Exception` handler, so a timeout is rendered
through `str(e)`. -/
def shutdown_wsl (beh : SubBehavior) : WSLCommandResult :=
  match beh with
  | .ok r => ⟨r.returncode, if r.returncode = 0 then "WSL已关闭" else "", pyStrip r.stderr⟩
  | .error e => ⟨-1, "", e.text⟩

/-- `WSLTool.terminate_distribution`. -/
def terminate_distribution (distribution : String) (beh : SubBehavior) : WSLCommandResult :=
  match beh with
  | .ok r =>
    ⟨r.returncode,
     if r.returncode = 0 then "发行版 " ++ distribution ++ " 已终止" else "",
     pyStrip r.stderr⟩
  | .error e => ⟨-1, "", e.text⟩

/-- `WSLTool.set_default_distribution`. -/
def set_default_distribution (distribution : String) (beh : SubBehavior) : WSLCommandResult :=
  match beh with
  | .ok r =>
    ⟨r.returncode,
     if r.returncode = 0 then distribution ++ " 已设为默认发行版" else "",
     pyStrip r.stderr⟩
  | .error e => ⟨-1, "", e.text⟩

/-- `WSLTool.export_distribution`. -/
def export_distribution (distribution file_path format_type : String)
    (beh : SubBehavior) : WSLCommandResult :=
  match beh with
  | .ok r =>
    ⟨r.returncode,
     if r.returncode = 0 then "发行版已导出到 " ++ file_path else "",
     pyStrip r.stderr⟩
  | .error e => ⟨-1, "", e.text⟩

/-- `WSLTool.import_distribution`. -/
def import_distribution (distribution install_location file_path : String)
    (version : Int) (beh : SubBehavior) : WSLCommandResult :=
  match beh with
  | .ok r =>
    ⟨r.returncode,
     if r.returncode = 0 then "发行版 " ++ distribution ++ " 已导入" else "",
     pyStrip r.stderr⟩
  | .error e => ⟨-1, "", e.text⟩

/-- `WSLTool.unregister_distribution`. -/
def unregister_distribution (distribution : String) (beh : SubBehavior) : WSLCommandResult :=
  match beh with
  | .ok r =>
    ⟨r.returncode,
     if r.returncode = 0 then "发行版 " ++ distribution ++ " 已注销" else "",
     pyStrip r.stderr⟩
  | .error e => ⟨-1, "", e.text⟩

/-- `WSLTool.get_wsl_status`: real streams, stripped; generic handler only. -/
def get_wsl_status (beh : SubBehavior) : WSLCommandResult :=
  match beh with
  | .ok r => ⟨r.returncode, pyStrip r.stdout, pyStrip r.stderr⟩
  | .error e => ⟨-1, "", e.text⟩

/-- `WSLTool.install_distribution`. -/
def install_distribution (distribution : String) (web_download no_launch : Bool)
    (beh : SubBehavior) : WSLCommandResult :=
  match beh with
  | .ok r =>
    ⟨r.returncode,
     if r.returncode = 0 then "正在安装发行版..." else "",
     pyStrip r.stderr⟩
  | .error e => ⟨-1, "", e.text⟩

/-- `WSLTool.get_wsl_version`: no try/except at all, so a raised exception
propagates to the caller (modelled as `Except.error`); on completion returns
the stripped stdout when the exit code is 0, else the fixed fallback text. -/
def get_wsl_version (beh : SubBehavior) : Except PyError String :=
  match beh with
  | .ok r => .ok (if r.returncode = 0 then pyStrip r.stdout else "无法获取WSL版本")
  | .error e => .error e

/-- One entry of `WSLTool.list_distributions`' result: the dict
`{"名称": parts[0], "状态": parts[1] or "", "版本": parts[2] or ""}`. -/
structure WSLDistro where
  name : String
  state : String
  version : String
deriving DecidableEq

/-- Parsing of one (guaranteed non-blank) line inside
`WSLTool.list_distributions`: `parts = line.split()`; `parts[0]` would raise
`IndexError` on an empty split, hence the `Option`. -/
def distroOfLine (line : String) : Option WSLDistro :=
  match pyTokens line with
  | [] => none
  | t :: ts => some ⟨t, ts.headD "", (ts.drop 1).headD ""⟩

/-- Body of `WSLTool.list_distributions`' success branch:
`lines = result.stdout.strip().split('\n')`, iterate `lines[1:]`, keep lines
with truthy `line.strip()`. -/
def listDistrosOfStdout (out : String) : List WSLDistro :=
  ((splitNL (pyStrip out)).drop 1).filterMap
    (fun line => if pyStrip line = "" then none else distroOfLine line)

/-- `WSLTool.list_distributions` (`wsl -l --verbose`): no try/except, so an
exception propagates; returns `[]` on a nonzero exit code. -/
def list_distributions (beh : SubBehavior) : Except PyError (List WSLDistro) :=
  match beh with
  | .ok r => .ok (if r.returncode = 0 then listDistrosOfStdout r.stdout else [])
  | .error e => .error e

/-- `WSLTool.list_online_distributions` (`wsl -l --online`): returns the
stripped non-blank lines after the first one on exit code 0, `[]` on a nonzero
exit code, and `[]` from its `except Exception` handler. -/
def list_online_distributions (beh : SubBehavior) : List String :=
  match beh with
  | .ok r =>
    if r.returncode = 0 then
      ((splitNL (pyStrip r.stdout)).drop 1).filterMap
        (fun line => if pyStrip line = "" then none else some (pyStrip line))
    else []
  | .error _ => []

/-! ## Path translator (`src/wsl_mcp/core/wsl.py`, lines 517-549) -/

/-- Python `rest.replace('\\', '/')`: a one-character pattern, so a charwise map. -/
def backslashToSlash (c : Char) : Char :=
  if c = '\\' then '/' else c

/-- Python `s.replace('//', '/')`: one left-to-right, non-overlapping pass. -/
def collapseDoubleSlash : List Char → List Char
  | '/' :: '/' :: rest => '/' :: collapseDoubleSlash rest
  | c :: rest => c :: collapseDoubleSlash rest
  | [] => []

/-- The guard of `WSLTool.convert_windows_path`:
`len(windows_path) >= 2 and windows_path[1] == ':'`. -/
def hasColonSecond : List Char → Bool
  | _ :: b :: _ => b == ':'
  | _ => false

/-- `WSLTool.convert_windows_path` on the character list: when the second
character is a colon, build
`f"/mnt/{drive}/{windows_path[2:].replace('\\','/').replace('//','/')}"`
with `drive = windows_path[0].lower()`; otherwise return the input unchanged. -/
def convert_windows_path_chars (l : List Char) : List Char :=
  match l with
  | a :: b :: rest =>
    if b = ':' then
      "/mnt/".data ++ a.toLower :: '/' :: collapseDoubleSlash (rest.map backslashToSlash)
    else l
  | _ => l

/-- `WSLTool.convert_windows_path` at the string level. -/
def convert_windows_path (s : String) : String :=
  ⟨convert_windows_path_chars s.data⟩

/-- `WSLTool.convert_to_windows_path` on the character list: when the input
starts with `/mnt/`, split on `/`; with at least three pieces, uppercase the
third, build `f"{drive}:\\{'/'.join(parts[3:])}"` and replace every `/` by
`\`; in every other case return the input unchanged. -/
def convert_to_windows_path_chars (l : List Char) : List Char :=
  if "/mnt/".data.isPrefixOf l then
    let parts := splitCh '/' l
    if 3 ≤ parts.length then
      let drive := (parts.getD 2 []).map Char.toUpper
      let joined := joinSep '/' (parts.drop 3)
      (drive ++ ':' :: '\\' :: joined).map (fun c => if c = '/' then '\\' else c)
    else l
  else l

/-- `WSLTool.convert_to_windows_path` at the string level. -/
def convert_to_windows_path (s : String) : String :=
  ⟨convert_to_windows_path_chars s.data⟩

/-- Modelled from the spec (not the source): the spec's notion of a
"drive-letter-colon prefix" — an ASCII letter followed by `:`.  Used only to
compare the spec's guard with the weaker guard the code actually applies. -/
def specDriveLetterColonStart (s : String) : Bool :=
  match s.data with
  | a :: b :: _ => (('A' ≤ a && a ≤ 'Z') || ('a' ≤ a && a ≤ 'z')) && b == ':'
  | _ => false

/-! ## Environment Directory operations (`src/wsl_mcp/tools/file_manager.py`)

Each operation builds one shell command string, calls
`wsl_tool.execute_command(command)` and maps the outcome to a result dict.
Only the fields the claims speak about are modelled: the success flag `成功`
and the error detail `错误` (plus operation-specific payloads where needed).
-/

/-- Result dict of a plain file-manager operation: `成功` and optional `错误`. -/
structure FMResult where
  success : Bool
  error : Option String
deriving DecidableEq

/-- `read_file` (`cat '<path>'`): success iff exit code 0; the
`except UnicodeDecodeError` inside the success branch is dead code because
`result.stdout` is already decoded text. -/
def read_file (beh : SubBehavior) : FMResult :=
  let result := execute_command beh
  if result.returncode = 0 then ⟨true, none⟩ else ⟨false, some result.stderr⟩

/-- `write_file` (`echo '<escaped>' > '<path>'`). -/
def write_file (beh : SubBehavior) : FMResult :=
  let result := execute_command beh
  if result.returncode = 0 then ⟨true, none⟩ else ⟨false, some result.stderr⟩

/-- `append_to_file` (`echo '<escaped>' >> '<path>'`). -/
def append_to_file (beh : SubBehavior) : FMResult :=
  let result := execute_command beh
  if result.returncode = 0 then ⟨true, none⟩ else ⟨false, some result.stderr⟩

/-- `create_directory` (`mkdir -p '<path>'` or `mkdir '<path>'`). -/
def create_directory (beh : SubBehavior) : FMResult :=
  let result := execute_command beh
  if result.returncode = 0 then ⟨true, none⟩ else ⟨false, some result.stderr⟩

/-- `delete_file` (`rm -rf '<path>'` or `rm -f '<path>'`). -/
def delete_file (beh : SubBehavior) : FMResult :=
  let result := execute_command beh
  if result.returncode = 0 then ⟨true, none⟩ else ⟨false, some result.stderr⟩

/-- `copy_file` (`cp [-r] '<src>' '<dst>'`). -/
def copy_file (beh : SubBehavior) : FMResult :=
  let result := execute_command beh
  if result.returncode = 0 then ⟨true, none⟩ else ⟨false, some result.stderr⟩

/-- `move_file` (`mv '<src>' '<dst>'`). -/
def move_file (beh : SubBehavior) : FMResult :=
  let result := execute_command beh
  if result.returncode = 0 then ⟨true, none⟩ else ⟨false, some result.stderr⟩

/-- `get_file_info` (`stat '<path>'`). -/
def get_file_info (beh : SubBehavior) : FMResult :=
  let result := execute_command beh
  if result.returncode = 0 then ⟨true, none⟩ else ⟨false, some result.stderr⟩

/-- `get_current_directory` (`pwd`). -/
def get_current_directory (beh : SubBehavior) : FMResult :=
  let result := execute_command beh
  if result.returncode = 0 then ⟨true, none⟩ else ⟨false, some result.stderr⟩

/-- `change_directory` (`cd '<path>' && pwd`). -/
def change_directory (beh : SubBehavior) : FMResult :=
  let result := execute_command beh
  if result.returncode = 0 then ⟨true, none⟩ else ⟨false, some result.stderr⟩

/-- `read_file_lines` (`sed -n '<a>,<b>p' '<path>'` / `sed -n '<a>,$p' '<path>'`). -/
def read_file_lines (beh : SubBehavior) : FMResult :=
  let result := execute_command beh
  if result.returncode = 0 then ⟨true, none⟩ else ⟨false, some result.stderr⟩

/-- `search_in_file` (`grep -n '<pat>' '<path>'` / `grep -nF '<pat>' '<path>'`). -/
def search_in_file (beh : SubBehavior) : FMResult :=
  let result := execute_command beh
  if result.returncode = 0 then ⟨true, none⟩ else ⟨false, some result.stderr⟩

/-- Python `s.startswith(pre)` via the underlying character lists. -/
def pyStartsWith (s pre : String) : Bool :=
  pre.data.isPrefixOf s.data

/-- Python `" ".join(pieces)` at the string level. -/
def joinSpaces : List String → String
  | [] => ""
  | [x] => x
  | x :: xs => x ++ " " ++ joinSpaces xs

/-- One entry of `list_directory`'s `内容` list: name (tokens 9+ joined with
single spaces), permission string (first token), and the classification string
`目录` (directory) or `文件` (file). -/
structure LsItem where
  name : String
  perms : String
  kind : String
deriving DecidableEq

/-- The entry built from a token list with at least 9 tokens. -/
def mkLsItem (parts : List String) : LsItem :=
  ⟨joinSpaces (parts.drop 8),
   parts.headD "",
   if pyStartsWith (parts.headD "") "d" then "目录" else "文件"⟩

/-- Per-line parsing inside `list_directory`: an empty line or a line with
fewer than 9 whitespace tokens contributes nothing. -/
def parseLsLine (line : String) : Option LsItem :=
  if line = "" then none
  else
    let parts := pyTokens line
    if 9 ≤ parts.length then some (mkLsItem parts) else none

/-- The `for line in lines` loop of `list_directory`, appending one item per
non-empty line with at least 9 tokens. -/
def lsItems : List String → List LsItem
  | [] => []
  | line :: rest =>
    if line = "" then lsItems rest
    else
      let parts := pyTokens line
      if 9 ≤ parts.length then mkLsItem parts :: lsItems rest
      else lsItems rest

/-- Result dict of `list_directory`: `成功`, the parsed `内容`, optional `错误`. -/
structure ListDirResult where
  success : Bool
  items : List LsItem
  error : Option String
deriving DecidableEq

/-- `list_directory` (`ls -la '<path>'`): on exit code 0 split the (re-)stripped
stdout on newlines and run the parsing loop; otherwise fail with stderr. -/
def list_directory (beh : SubBehavior) : ListDirResult :=
  let result := execute_command beh
  if result.returncode = 0 then
    ⟨true, lsItems (splitNL (pyStrip result.stdout)), none⟩
  else ⟨false, [], some result.stderr⟩

/-- Result dict of the existence/type checks: `成功` plus the check's verdict
(`存在` / `是目录` / `是文件`); these dicts carry no `错误` field at all. -/
structure CheckResult where
  success : Bool
  verdict : Bool
deriving DecidableEq

/-- `file_exists` (`if [ -e '<path>' ]; then echo 'exists'; else echo
'not_exists'; fi`): always reports `成功: True`; the verdict is the comparison
of the stripped stdout with the sentinel `exists`. -/
def file_exists (beh : SubBehavior) : CheckResult :=
  let result := execute_command beh
  ⟨true, result.stdout = "exists"⟩

/-- `is_directory` (sentinel `dir` / `not_dir`): always reports `成功: True`. -/
def is_directory (beh : SubBehavior) : CheckResult :=
  let result := execute_command beh
  ⟨true, result.stdout = "dir"⟩

/-- `is_file` (sentinel `file` / `not_file`): always reports `成功: True`. -/
def is_file (beh : SubBehavior) : CheckResult :=
  let result := execute_command beh
  ⟨true, result.stdout = "file"⟩

/-- Result dict of `count_lines`: `成功`, the parsed `行数`, optional `错误`. -/
structure CountResult where
  success : Bool
  count : Option Int
  error : Option String
deriving DecidableEq

/-- `count_lines` (`wc -l '<path>'`): on exit code 0 parse
`int(result.stdout.strip().split()[0])`; an `IndexError` (no tokens) or
`ValueError` (not an integer) is caught and reported as the fixed parse-failure
text; a nonzero exit code fails with stderr. -/
def count_lines (beh : SubBehavior) : CountResult :=
  let result := execute_command beh
  if result.returncode = 0 then
    match pyTokens (pyStrip result.stdout) with
    | [] => ⟨false, none, some "无法解析行数"⟩
    | t :: _ =>
      match pyParseInt t with
      | some n => ⟨true, some n, none⟩
      | none => ⟨false, none, some "无法解析行数"⟩
  else ⟨false, none, some result.stderr⟩

/-! ## Helper lemmas about the string primitives -/

/-- The tokenizer worker never returns `[]` once the accumulator is non-empty. -/
theorem pyTokensAux_ne_nil (l : List Char) :
    ∀ acc : List Char, acc ≠ [] → pyTokensAux l acc ≠ [] := by
  induction l with
  | nil =>
    intro acc h
    obtain ⟨a, t, rfl⟩ := List.exists_cons_of_ne_nil h
    simp [pyTokensAux]
  | cons c rest ih =>
    intro acc h
    obtain ⟨a, t, rfl⟩ := List.exists_cons_of_ne_nil h
    by_cases hc : pyIsSpace c
    · simp [pyTokensAux, hc]
    · simp only [pyTokensAux, hc, Bool.false_eq_true, if_false]
      exact ih _ (List.cons_ne_nil _ _)

/-- If tokenization produces nothing, every character is whitespace. -/
theorem dropWhile_eq_nil_of_tokens_nil :
    ∀ l : List Char, pyTokensAux l [] = [] → l.dropWhile pyIsSpace = [] := by
  intro l
  induction l with
  | nil => intro _; rfl
  | cons c rest ih =>
    intro h
    by_cases hc : pyIsSpace c
    · have h' : pyTokensAux rest [] = [] := by simpa [pyTokensAux, hc] using h
      simpa [List.dropWhile_cons, hc] using ih h'
    · exfalso
      apply pyTokensAux_ne_nil rest [c] (List.cons_ne_nil _ _)
      simpa [pyTokensAux, hc] using h

/-- A list whose tokenization is empty also strips to the empty list. -/
theorem stripChars_eq_nil_of_tokens_nil (l : List Char) (h : pyTokensChars l = []) :
    stripChars l = [] := by
  have hd : l.dropWhile pyIsSpace = [] := dropWhile_eq_nil_of_tokens_nil l h
  simp [stripChars, hd]

/-- A line whose `strip()` is truthy has at least one whitespace token. -/
theorem pyTokens_ne_nil_of_strip_ne (line : String) (h : pyStrip line ≠ "") :
    pyTokens line ≠ [] := by
  intro hnil
  apply h
  have h1 : pyTokensChars line.data = [] := by simpa [pyTokens] using hnil
  have h2 : stripChars line.data = [] := stripChars_eq_nil_of_tokens_nil _ h1
  show (⟨stripChars line.data⟩ : String) = ""
  rw [h2]

/-- Python `s.split(sep)` on a string not containing the separator. -/
theorem splitCh_not_mem (sep : Char) (l : List Char) (h : sep ∉ l) :
    splitCh sep l = [l] := by
  induction l with
  | nil => rfl
  | cons c rest ih =>
    rw [List.mem_cons] at h
    push_neg at h
    obtain ⟨h1, h2⟩ := h
    simp [splitCh, Ne.symm h1, ih h2]

/-- The `list_directory` accumulation loop is a `filterMap` of the per-line parse. -/
theorem lsItems_eq_filterMap (lines : List String) :
    lsItems lines = lines.filterMap parseLsLine := by
  induction lines with
  | nil => rfl
  | cons line rest ih =>
    by_cases he : line = ""
    · simp [lsItems, parseLsLine, he, ih]
    · by_cases h9 : 9 ≤ (pyTokens line).length
      · simp [lsItems, parseLsLine, he, h9, ih]
      · simp [lsItems, parseLsLine, he, h9, ih]

/-! ## Claim theorems -/

/-- C1: the canonical round trips fail on the code.  For the canonical host
path `C:\a\b` the round trip yields `C:\\a\b` (doubled backslash), and for the
canonical guest path `/mnt/c/a/b` it yields `/mnt/c//a/b` (doubled slash):
`convert_windows_path` inserts a `/` after the drive although the converted
remainder of a `X:\...` path already starts with one. -/
theorem C1_roundtrip_failure :
    convert_to_windows_path (convert_windows_path "C:\\a\\b") = "C:\\\\a\\b" ∧
    "C:\\\\a\\b" ≠ "C:\\a\\b" ∧
    convert_windows_path (convert_to_windows_path "/mnt/c/a/b") = "/mnt/c//a/b" ∧
    "/mnt/c//a/b" ≠ "/mnt/c/a/b" := by
  refine ⟨rfl, by decide, rfl, by decide⟩

/-- C2: `convert_windows_path` maps `C:\Users\Name` to `/mnt/c//Users/Name`
(doubled slash), contradicting both the claim and the function's own docstring
example `/mnt/c/Users/Name`; the converse direction of the claim's example,
`convert_to_windows_path "/mnt/c/Users/Name" = "C:\Users\Name"`, does hold. -/
theorem C2_toGuestPath_example_bug :
    convert_windows_path "C:\\Users\\Name" = "/mnt/c//Users/Name" ∧
    "/mnt/c//Users/Name" ≠ "/mnt/c/Users/Name" ∧
    convert_to_windows_path "/mnt/c/Users/Name" = "C:\\Users\\Name" := by
  refine ⟨rfl, by decide, rfl⟩

/-- C6 counterexample: `"1:a"` has no drive-letter-colon prefix (its first
character is not a letter), yet `convert_windows_path` does not return it
unchanged — the code only tests that the second character is a colon. -/
theorem C6_nonletter_drive_converted :
    specDriveLetterColonStart "1:a" = false ∧
    convert_windows_path "1:a" = "/mnt/1/a" ∧
    convert_windows_path "1:a" ≠ "1:a" := by
  refine ⟨rfl, rfl, by decide⟩

/-- C6 amended: `convert_windows_path` returns its input unchanged exactly when
the code's weaker guard fails — the input has fewer than two characters or its
second character is not `:` (the first character is never inspected); and
`convert_to_windows_path` returns unchanged every input not starting with
`/mnt/`. -/
theorem C6_identity_fallback_amended :
    (∀ s : String, hasColonSecond s.data = false → convert_windows_path s = s) ∧
    (∀ s : String, "/mnt/".data.isPrefixOf s.data = false → convert_to_windows_path s = s) := by
  constructor
  · intro s h
    obtain ⟨l⟩ := s
    show (⟨convert_windows_path_chars l⟩ : String) = ⟨l⟩
    congr 1
    cases l with
    | nil => rfl
    | cons a t =>
      cases t with
      | nil => rfl
      | cons b rest =>
        have hb : ¬ b = ':' := by simpa [hasColonSecond] using h
        simp [convert_windows_path_chars, hb]
  · intro s h
    obtain ⟨l⟩ := s
    show (⟨convert_to_windows_path_chars l⟩ : String) = ⟨l⟩
    congr 1
    simp [convert_to_windows_path_chars, h]

/-- C6 witness: concrete instances of both identity fallbacks. -/
theorem C6_identity_fallback_witness :
    convert_windows_path "abc" = "abc" ∧ convert_to_windows_path "xyz" = "xyz" :=
  ⟨C6_identity_fallback_amended.1 "abc" (by decide),
   C6_identity_fallback_amended.2 "xyz" (by decide)⟩

/-- C7: the advanced-run argument vector is the launcher executable, then each
optional flag pair exactly when its parameter is non-empty, in the order
`-d`, `-u`, `--cd`, `--shell-type`, followed by `--exec sh -c <command>`;
an omitted option contributes no flag at all. -/
theorem C7_advanced_args_shape :
    ∀ command distribution user working_dir shell_type : String,
      execute_command_advanced_args command distribution user working_dir shell_type =
        ["wsl.exe"] ++
        (if distribution = "" then [] else ["-d", distribution]) ++
        (if user = "" then [] else ["-u", user]) ++
        (if working_dir = "" then [] else ["--cd", working_dir]) ++
        (if shell_type = "" then [] else ["--shell-type", shell_type]) ++
        ["--exec", "sh", "-c", command] := by
  intro c d u w s
  unfold execute_command_advanced_args
  by_cases hd : d = "" <;> by_cases hu : u = "" <;> by_cases hw : w = "" <;>
    by_cases hs : s = "" <;> simp [hd, hu, hw, hs]

/-- C3 counterexample: the version query and the list-installed-verbose query
wrap `subprocess.run` in no try/except, so a timeout or launch failure
propagates to the caller instead of being returned as an exit-code -1 outcome. -/
theorem C3_unhandled_version_query :
    get_wsl_version (.error (.timedOut "TimeoutExpired")) =
      .error (.timedOut "TimeoutExpired") ∧
    list_distributions (.error (.launchError "FileNotFoundError")) =
      .error (.launchError "FileNotFoundError") :=
  ⟨rfl, rfl⟩

/-- C3 amended: the simple run and the advanced run catch a timeout and return
`(-1, "", timeoutMessage)` and catch any other exception and return
`(-1, "", str(e))`; the lifecycle commands with a handler (shutdown, terminate,
set-default, export, import, unregister, status, install) return
`(-1, "", str(e))` for both failure shapes (their generic handler renders the
timeout exception's own text instead of the fixed message); list-online returns
`[]`; but the version query and list-installed-verbose have no handler and the
exception propagates to the caller. -/
theorem C3_failure_handling_amended :
    ∀ (t m d loc fp fmt : String) (ver : Int) (wd nl : Bool),
      execute_command (.error (.timedOut t)) = ⟨-1, "", timeoutMessage⟩ ∧
      execute_command (.error (.launchError m)) = ⟨-1, "", m⟩ ∧
      execute_command_advanced_result (.error (.timedOut t)) = ⟨-1, "", timeoutMessage⟩ ∧
      execute_command_advanced_result (.error (.launchError m)) = ⟨-1, "", m⟩ ∧
      shutdown_wsl (.error (.timedOut t)) = ⟨-1, "", t⟩ ∧
      shutdown_wsl (.error (.launchError m)) = ⟨-1, "", m⟩ ∧
      terminate_distribution d (.error (.timedOut t)) = ⟨-1, "", t⟩ ∧
      terminate_distribution d (.error (.launchError m)) = ⟨-1, "", m⟩ ∧
      set_default_distribution d (.error (.timedOut t)) = ⟨-1, "", t⟩ ∧
      set_default_distribution d (.error (.launchError m)) = ⟨-1, "", m⟩ ∧
      export_distribution d fp fmt (.error (.timedOut t)) = ⟨-1, "", t⟩ ∧
      export_distribution d fp fmt (.error (.launchError m)) = ⟨-1, "", m⟩ ∧
      import_distribution d loc fp ver (.error (.timedOut t)) = ⟨-1, "", t⟩ ∧
      import_distribution d loc fp ver (.error (.launchError m)) = ⟨-1, "", m⟩ ∧
      unregister_distribution d (.error (.timedOut t)) = ⟨-1, "", t⟩ ∧
      unregister_distribution d (.error (.launchError m)) = ⟨-1, "", m⟩ ∧
      get_wsl_status (.error (.timedOut t)) = ⟨-1, "", t⟩ ∧
      get_wsl_status (.error (.launchError m)) = ⟨-1, "", m⟩ ∧
      install_distribution d wd nl (.error (.timedOut t)) = ⟨-1, "", t⟩ ∧
      install_distribution d wd nl (.error (.launchError m)) = ⟨-1, "", m⟩ ∧
      list_online_distributions (.error (.timedOut t)) = [] ∧
      list_online_distributions (.error (.launchError m)) = [] ∧
      (∀ e : PyError, get_wsl_version (.error e) = .error e) ∧
      (∀ e : PyError, list_distributions (.error e) = .error e) := by
  intro t m d loc fp fmt ver wd nl
  exact ⟨rfl, rfl, rfl, rfl, rfl, rfl, rfl, rfl, rfl, rfl, rfl, rfl, rfl, rfl,
         rfl, rfl, rfl, rfl, rfl, rfl, rfl, rfl, fun _ => rfl, fun _ => rfl⟩

/-- C5 counterexample: on a successful shutdown the outcome's stdout is the
synthesized fixed message, not the child's captured (trimmed) stdout. -/
theorem C5_shutdown_stdout_synthesized :
    shutdown_wsl (.ok ⟨0, "hello", ""⟩) = ⟨0, "WSL已关闭", ""⟩ ∧
    ("WSL已关闭" : String) ≠ pyStrip "hello" := by
  refine ⟨rfl, by decide⟩

/-- C5 amended: the simple run, the advanced run and the status query place the
child's captured stdout and stderr, trimmed of surrounding whitespace, in the
outcome; the other lifecycle commands keep only the trimmed child stderr and
replace stdout by a fixed success message when the exit code is 0 and by the
empty string otherwise. -/
theorem C5_output_normalization_amended :
    ∀ (r : RunResult) (d loc fp fmt : String) (ver : Int) (wd nl : Bool),
      execute_command (.ok r) = ⟨r.returncode, pyStrip r.stdout, pyStrip r.stderr⟩ ∧
      execute_command_advanced_result (.ok r) =
        ⟨r.returncode, pyStrip r.stdout, pyStrip r.stderr⟩ ∧
      get_wsl_status (.ok r) = ⟨r.returncode, pyStrip r.stdout, pyStrip r.stderr⟩ ∧
      shutdown_wsl (.ok r) =
        ⟨r.returncode, if r.returncode = 0 then "WSL已关闭" else "", pyStrip r.stderr⟩ ∧
      export_distribution d fp fmt (.ok r) =
        ⟨r.returncode, if r.returncode = 0 then "发行版已导出到 " ++ fp else "",
         pyStrip r.stderr⟩ ∧
      terminate_distribution d (.ok r) =
        ⟨r.returncode, if r.returncode = 0 then "发行版 " ++ d ++ " 已终止" else "",
         pyStrip r.stderr⟩ ∧
      set_default_distribution d (.ok r) =
        ⟨r.returncode, if r.returncode = 0 then d ++ " 已设为默认发行版" else "",
         pyStrip r.stderr⟩ ∧
      import_distribution d loc fp ver (.ok r) =
        ⟨r.returncode, if r.returncode = 0 then "发行版 " ++ d ++ " 已导入" else "",
         pyStrip r.stderr⟩ ∧
      unregister_distribution d (.ok r) =
        ⟨r.returncode, if r.returncode = 0 then "发行版 " ++ d ++ " 已注销" else "",
         pyStrip r.stderr⟩ ∧
      install_distribution d wd nl (.ok r) =
        ⟨r.returncode, if r.returncode = 0 then "正在安装发行版..." else "",
         pyStrip r.stderr⟩ := by
  intro r d loc fp fmt ver wd nl
  exact ⟨rfl, rfl, rfl, rfl, rfl, rfl, rfl, rfl, rfl, rfl⟩

/-- C4 counterexample: `file_exists` reports success even when the underlying
simple-run outcome has exit code 1, and surfaces no stderr detail — the
existence/type checks never inspect the exit code. -/
theorem C4_file_exists_ignores_exit_code :
    file_exists (.ok ⟨1, "", "boom"⟩) = ⟨true, false⟩ ∧
    (execute_command (.ok ⟨1, "", "boom"⟩)).returncode ≠ 0 := by
  refine ⟨rfl, by decide⟩

/-- C4 amended: every Environment Directory operation that checks the exit code
(read, write, append, mkdir, list, delete, copy, move, stat, pwd, cd,
line-range read, pattern search, line count) reports failure with the outcome's
stderr as the error detail on any nonzero exit code, and reports success on
exit code 0 — except `count_lines`, whose success additionally requires the
leading stdout token to parse as an integer; the existence/type checks
`file_exists`, `is_directory` and `is_file` always report success, whatever the
exit code, and never surface stderr. -/
theorem C4_exit_code_policy_amended :
    ∀ beh : SubBehavior,
      ((execute_command beh).returncode ≠ 0 →
        read_file beh = ⟨false, some (execute_command beh).stderr⟩ ∧
        write_file beh = ⟨false, some (execute_command beh).stderr⟩ ∧
        append_to_file beh = ⟨false, some (execute_command beh).stderr⟩ ∧
        create_directory beh = ⟨false, some (execute_command beh).stderr⟩ ∧
        delete_file beh = ⟨false, some (execute_command beh).stderr⟩ ∧
        copy_file beh = ⟨false, some (execute_command beh).stderr⟩ ∧
        move_file beh = ⟨false, some (execute_command beh).stderr⟩ ∧
        get_file_info beh = ⟨false, some (execute_command beh).stderr⟩ ∧
        get_current_directory beh = ⟨false, some (execute_command beh).stderr⟩ ∧
        change_directory beh = ⟨false, some (execute_command beh).stderr⟩ ∧
        read_file_lines beh = ⟨false, some (execute_command beh).stderr⟩ ∧
        search_in_file beh = ⟨false, some (execute_command beh).stderr⟩ ∧
        list_directory beh = ⟨false, [], some (execute_command beh).stderr⟩ ∧
        count_lines beh = ⟨false, none, some (execute_command beh).stderr⟩) ∧
      ((execute_command beh).returncode = 0 →
        read_file beh = ⟨true, none⟩ ∧
        write_file beh = ⟨true, none⟩ ∧
        append_to_file beh = ⟨true, none⟩ ∧
        create_directory beh = ⟨true, none⟩ ∧
        delete_file beh = ⟨true, none⟩ ∧
        copy_file beh = ⟨true, none⟩ ∧
        move_file beh = ⟨true, none⟩ ∧
        get_file_info beh = ⟨true, none⟩ ∧
        get_current_directory beh = ⟨true, none⟩ ∧
        change_directory beh = ⟨true, none⟩ ∧
        read_file_lines beh = ⟨true, none⟩ ∧
        search_in_file beh = ⟨true, none⟩ ∧
        (list_directory beh).success = true ∧ (list_directory beh).error = none) ∧
      ((count_lines beh).success = true → (execute_command beh).returncode = 0) ∧
      (file_exists beh).success = true ∧
      (is_directory beh).success = true ∧
      (is_file beh).success = true := by
  intro beh
  by_cases h : (execute_command beh).returncode = 0
  · refine ⟨fun hne => absurd h hne, fun _ => ?_, fun _ => h, rfl, rfl, rfl⟩
    simp [read_file, write_file, append_to_file, create_directory, delete_file,
      copy_file, move_file, get_file_info, get_current_directory, change_directory,
      read_file_lines, search_in_file, list_directory, h]
  · refine ⟨fun _ => ?_, fun heq => absurd heq h, ?_, rfl, rfl, rfl⟩
    · simp [read_file, write_file, append_to_file, create_directory, delete_file,
        copy_file, move_file, get_file_info, get_current_directory, change_directory,
        read_file_lines, search_in_file, list_directory, count_lines, h]
    · simp [count_lines, h]

/-- C4 witness: on a completed child with exit code 2 and stderr `boom`,
`delete_file` fails surfacing `boom` while `file_exists` still reports success. -/
theorem C4_exit_code_policy_witness :
    delete_file (.ok ⟨2, "", "boom"⟩) = ⟨false, some "boom"⟩ ∧
    (file_exists (.ok ⟨2, "", "boom"⟩)).success = true := by
  have h := C4_exit_code_policy_amended (.ok ⟨2, "", "boom"⟩)
  refine ⟨?_, h.2.2.2.1⟩
  exact ((h.1 (by decide)).2.2.2.2.1).trans (by decide)

/-- C8: directory-listing parsing — a line with fewer than 9 whitespace tokens
is skipped without error; a line with at least 9 tokens yields an entry
classified as a directory exactly when its first token starts with `d` and as a
file otherwise, with the name being the 9th token onward; the accumulation loop
is exactly the per-line parse; and on a fixed `ls -la`-style sample the `d`
entry and the `-` entry are classified as directory and file while the short
`total` line is skipped. -/
theorem C8_ls_line_parsing :
    (∀ line : String, (pyTokens line).length < 9 → parseLsLine line = none) ∧
    (∀ line : String, 9 ≤ (pyTokens line).length →
      parseLsLine line =
        some ⟨joinSpaces ((pyTokens line).drop 8),
              (pyTokens line).headD "",
              if pyStartsWith ((pyTokens line).headD "") "d" then "目录" else "文件"⟩) ∧
    (∀ lines : List String, lsItems lines = lines.filterMap parseLsLine) ∧
    list_directory (.ok ⟨0,
        "total 8\ndrwxr-xr-x 2 user group 4096 Jan 1 00:00 srcdir\n-rw-r--r-- 1 user group 120 Jan 1 00:00 notes.txt",
        ""⟩) =
      ⟨true,
       [⟨"srcdir", "drwxr-xr-x", "目录"⟩, ⟨"notes.txt", "-rw-r--r--", "文件"⟩],
       none⟩ := by
  refine ⟨?_, ?_, fun lines => lsItems_eq_filterMap lines, by decide⟩
  · intro line h
    by_cases he : line = ""
    · simp [parseLsLine, he]
    · simp [parseLsLine, he, Nat.not_le.mpr h]
  · intro line h9
    by_cases he : line = ""
    · subst he
      exact absurd h9 (by decide)
    · simp [parseLsLine, he, h9, mkLsItem]

/-- C8 witness: the short `total` line is skipped, and a 10-token `d` line is
parsed with tokens 9-10 joined into the name and classified as a directory. -/
theorem C8_ls_line_parsing_witness :
    parseLsLine "total 8" = none ∧
    parseLsLine "drwxr-xr-x 2 u g 4096 Jan 1 00:00 my dir" =
      some ⟨"my dir", "drwxr-xr-x", "目录"⟩ := by
  refine ⟨C8_ls_line_parsing.1 "total 8" (by decide), ?_⟩
  exact (C8_ls_line_parsing.2.1 "drwxr-xr-x 2 u g 4096 Jan 1 00:00 my dir"
    (by decide)).trans (by decide)

/-- C9: environment-descriptor parsing — a non-blank line always parses (never
an error), its name is the first whitespace token, and the state and version
fields default to the empty string when the line has fewer than three tokens,
as the concrete one-, two- and three-token samples show. -/
theorem C9_distro_line_parsing :
    (∀ line : String, pyStrip line ≠ "" → (distroOfLine line).isSome = true) ∧
    (∀ (line t : String) (ts : List String),
      pyTokens line = t :: ts →
      distroOfLine line = some ⟨t, ts.headD "", (ts.drop 1).headD ""⟩) ∧
    distroOfLine "Ubuntu" = some ⟨"Ubuntu", "", ""⟩ ∧
    distroOfLine "Ubuntu  Running" = some ⟨"Ubuntu", "Running", ""⟩ ∧
    distroOfLine "Ubuntu  Running  2" = some ⟨"Ubuntu", "Running", "2"⟩ := by
  refine ⟨?_, ?_, by decide, by decide, by decide⟩
  · intro line h
    have hne := pyTokens_ne_nil_of_strip_ne line h
    cases htok : pyTokens line with
    | nil => exact absurd htok hne
    | cons t ts => simp [distroOfLine, htok]
  · intro line t ts h
    simp [distroOfLine, h]

/-- C9 witness: a padded non-blank line parses, and a two-token line gets an
empty version field. -/
theorem C9_distro_line_parsing_witness :
    (distroOfLine "  Ubuntu-22.04  Stopped  2  ").isSome = true ∧
    distroOfLine "Alpine Running" = some ⟨"Alpine", "Running", ""⟩ := by
  refine ⟨C9_distro_line_parsing.1 "  Ubuntu-22.04  Stopped  2  " (by decide), ?_⟩
  exact (C9_distro_line_parsing.2.1 "Alpine Running" "Alpine" ["Running"]
    (by decide)).trans (by decide)

/-- C10: both listing operations return an empty list on a nonzero exit code
(and list-online also on a caught exception), surfacing no exit code or stderr
detail; and the first line of the output is always excluded — an output with no
newline after stripping yields an empty list, and in the concrete sample the
parseable header line contributes no entry. -/
theorem C10_listing_failure_opacity :
    (∀ r : RunResult, r.returncode ≠ 0 → list_distributions (.ok r) = .ok []) ∧
    (∀ r : RunResult, r.returncode ≠ 0 → list_online_distributions (.ok r) = []) ∧
    (∀ e : PyError, list_online_distributions (.error e) = []) ∧
    (∀ r : RunResult, '\n' ∉ (pyStrip r.stdout).data →
      list_distributions (.ok r) = .ok []) ∧
    (∀ r : RunResult, '\n' ∉ (pyStrip r.stdout).data →
      list_online_distributions (.ok r) = []) ∧
    list_distributions (.ok ⟨0,
        "  NAME      STATE           VERSION\n  Ubuntu    Running         2", ""⟩) =
      .ok [⟨"Ubuntu", "Running", "2"⟩] := by
  refine ⟨?_, ?_, fun e => rfl, ?_, ?_, rfl⟩
  · intro r h
    simp [list_distributions, h]
  · intro r h
    simp [list_online_distributions, h]
  · intro r h
    by_cases h0 : r.returncode = 0
    · have hs := splitCh_not_mem '\n' (pyStrip r.stdout).data h
      simp [list_distributions, h0, listDistrosOfStdout, splitNL, hs]
    · simp [list_distributions, h0]
  · intro r h
    by_cases h0 : r.returncode = 0
    · have hs := splitCh_not_mem '\n' (pyStrip r.stdout).data h
      simp [list_online_distributions, h0, splitNL, hs]
    · simp [list_online_distributions, h0]

/-- C10 witness: a failed verbose listing returns the empty list even with
parseable stdout and non-empty stderr, as does a failed online listing. -/
theorem C10_listing_failure_opacity_witness :
    list_distributions (.ok ⟨-1, "Ubuntu Running 2", "boom"⟩) = .ok [] ∧
    list_online_distributions (.ok ⟨5, "Ubuntu", ""⟩) = [] :=
  ⟨C10_listing_failure_opacity.1 ⟨-1, "Ubuntu Running 2", "boom"⟩ (by decide),
   C10_listing_failure_opacity.2.1 ⟨5, "Ubuntu", ""⟩ (by decide)⟩
